import Mathlib

/-!
# Verification of `egret` `EventDispatcher` (src/src/egret/events/EventDispatcher.ts)

A shallow embedding of the event-dispatch core: listener registration with
priority-ordered buckets keyed by event type and phase, removal, existence
query, and synchronous dispatch with immediate-stop and default-prevention
flags.  The `Event` class itself is not part of the given sources (only
`EventDispatcher.ts` is), so its fields and the three helpers the dispatcher
calls (`_reset`, `_setCurrentTarget`, `isDefaultPrevented`) are modelled from
the specification.

Dispatcher and receiver references are modelled as numeric identities,
listener callables as records carrying an identity plus the flags the
callable sets on the event it receives (per the spec, a listener interacts
with this core only by setting the event's propagation/default flags).
-/

/-- Modelled from the spec: an opaque listener callable.  `id` is the
callable's identity (JS `===` on function objects); the three flag fields
describe which of the event's dispatch flags the callable sets when invoked
(spec §3: `propagationStopped`, `immediatePropagationStopped`,
`defaultPrevented` are "set by listener code during dispatch"; listeners have
no other observable interaction with this core). -/
structure Listener where
  id : Nat
  setPrevent : Bool
  setStopImmediate : Bool
  setStopPropagation : Bool
deriving DecidableEq, Repr

/-- Modelled from the spec: the `Event` record (§3 of the spec; the `Event`
class source is not among the given files).  References to dispatchers are
numeric identities; `data` is the opaque payload (`none` = `null`). -/
structure Event where
  _type : String
  _bubbles : Bool
  data : Option Nat
  _target : Option Nat
  _currentTarget : Option Nat
  _eventPhase : Nat
  _isDefaultPrevented : Bool
  _isPropagationStopped : Bool
  _isPropagationImmediateStopped : Bool
deriving DecidableEq, Repr

/-- Modelled from the spec: `_reset` clears the event's propagation and
default-prevention flags (spec §4.4 step 1). -/
def Event._reset (e : Event) : Event :=
  { e with _isDefaultPrevented := false, _isPropagationStopped := false,
           _isPropagationImmediateStopped := false }

/-- Modelled from the spec: `_setCurrentTarget` stores the given dispatcher
reference in `currentTarget`. -/
def Event._setCurrentTarget (e : Event) (t : Nat) : Event :=
  { e with _currentTarget := some t }

/-- Modelled from the spec: accessor for the default-prevention flag. -/
def Event.isDefaultPrevented (e : Event) : Bool :=
  e._isDefaultPrevented

/-- The `{listener, thisObject, priority}` record built at
EventDispatcher.ts:100. -/
structure EventBin where
  listener : Listener
  thisObject : Option Nat
  priority : Int
deriving DecidableEq, Repr

/-- A `type → Array` bucket list. -/
abbrev Bucket := List EventBin

/-- The duck-typed `Object` used as `_eventsMap` / `_captureEventsMap`:
an association list from type key to bucket (JS object keys are unique;
lookup takes the first matching entry). -/
abbrev EventsMap := List (String × Bucket)

/-- Reads `eventMap[type]`: `undefined` (`none`) when the key is absent. -/
def mapFind (m : EventsMap) (k : String) : Option Bucket :=
  (m.find? (fun p => p.1 == k)).map (fun p => p.2)

/-- Writes `eventMap[type] = list`: replaces the entry for key `k`, creating
it when absent. -/
def mapSet : EventsMap → String → Bucket → EventsMap
  | [], k, v => [(k, v)]
  | (k', v') :: rest, k, v =>
      if k' == k then (k, v) :: rest else (k', v') :: mapSet rest k v

/-- Performs `delete eventMap[type]` (EventDispatcher.ts:132).  A JS object
holds at most one entry per key, so deleting the key drops every entry whose
key matches. -/
def mapDelete : EventsMap → String → EventsMap
  | [], _ => []
  | (k', v') :: rest, k =>
      if k' == k then mapDelete rest k else (k', v') :: mapDelete rest k

/-- The `EventDispatcher` instance state: the declared dispatch target
(a dispatcher identity) and the two phase maps (EventDispatcher.ts:45-55). -/
structure EventDispatcher where
  target : Nat
  _eventsMap : EventsMap
  _captureEventsMap : EventsMap
deriving DecidableEq, Repr

/-- The constructor (EventDispatcher.ts:35-40): `target` is the delegate when
one is passed, otherwise the dispatcher itself (modelled by its own
identity `selfId`). -/
def mkEventDispatcher (selfId : Nat) (target : Option Nat) : EventDispatcher :=
  { target := target.getD selfId, _eventsMap := [], _captureEventsMap := [] }

/-- Selects `useCapture ? this._captureEventsMap : this._eventsMap`. -/
def selMap (d : EventDispatcher) (useCapture : Bool) : EventsMap :=
  if useCapture then d._captureEventsMap else d._eventsMap

/-- Writes back the map selected by `useCapture` (the source mutates the
selected map in place). -/
def setSelMap (d : EventDispatcher) (useCapture : Bool) (m : EventsMap) :
    EventDispatcher :=
  if useCapture then { d with _captureEventsMap := m } else { d with _eventsMap := m }

/-- Embeds `addEventListener` (EventDispatcher.ts:77-107).  The single scan of the
bucket returns early (before any mutation) when a binding with the same
listener identity exists; otherwise `insertIndex` is the first position whose
binding has `priority <= priority`, the splice point of the new bin
(appended when no such position exists). -/
def addEventListener (d : EventDispatcher) (typeKey : String)
    (listener : Listener) (thisObject : Option Nat)
    (useCapture : Bool) (priority : Int) : EventDispatcher :=
  let eventMap := selMap d useCapture
  match mapFind eventMap typeKey with
  | some list =>
      if list.any (fun bin => bin.listener == listener) then d
      else
        let eventBin : EventBin := ⟨listener, thisObject, priority⟩
        let newList :=
          match list.findIdx? (fun bin => decide (bin.priority ≤ priority)) with
          | some insertIndex =>
              list.take insertIndex ++ eventBin :: list.drop insertIndex
          | none => list ++ [eventBin]
        setSelMap d useCapture (mapSet eventMap typeKey newList)
  | none =>
      setSelMap d useCapture (mapSet eventMap typeKey [⟨listener, thisObject, priority⟩])

/-- Embeds the `list.splice(i, 1)`-with-`break` loop of `removeEventListener`
(EventDispatcher.ts:124-130): removes the first binding whose listener
identity matches, leaves the rest untouched. -/
def removeFirst : Bucket → Listener → Bucket
  | [], _ => []
  | bin :: rest, l => if bin.listener == l then rest else bin :: removeFirst rest l

/-- Embeds `removeEventListener` (EventDispatcher.ts:117-134): no-op when the bucket
is absent; otherwise removes the first matching binding and, when the bucket
is left empty, deletes the type key from the map. -/
def removeEventListener (d : EventDispatcher) (typeKey : String)
    (listener : Listener) (useCapture : Bool) : EventDispatcher :=
  let eventMap := selMap d useCapture
  match mapFind eventMap typeKey with
  | none => d
  | some list =>
      let list' := removeFirst list listener
      if list'.length = 0 then setSelMap d useCapture (mapDelete eventMap typeKey)
      else setSelMap d useCapture (mapSet eventMap typeKey list')

/-- Embeds `hasEventListener` (EventDispatcher.ts:142-144):
`_eventsMap[type] || _captureEventsMap[type]`, coerced to boolean (a stored
bucket — even an empty array — is truthy, so truthiness is key presence). -/
def hasEventListener (d : EventDispatcher) (typeKey : String) : Bool :=
  (mapFind d._eventsMap typeKey).isSome || (mapFind d._captureEventsMap typeKey).isSome

/-- Embeds `eventBin.listener.apply(eventBin.thisObject, [event])`
(EventDispatcher.ts:168), with the listener callable modelled by the flags it
sets on the event it receives. -/
def applyListener (bin : EventBin) (e : Event) : Event :=
  { e with
    _isDefaultPrevented := e._isDefaultPrevented || bin.listener.setPrevent,
    _isPropagationStopped := e._isPropagationStopped || bin.listener.setStopPropagation,
    _isPropagationImmediateStopped :=
      e._isPropagationImmediateStopped || bin.listener.setStopImmediate }

/-- The notification loop (EventDispatcher.ts:166-172): invoke each binding
in stored order, breaking right after an invocation once
`_isPropagationImmediateStopped` holds.  Returns the event after the invoked
listeners ran, paired with the list of bindings actually invoked (the second
component is observational instrumentation used by the specifications; it
does not influence the event or the loop). -/
def runListeners : Bucket → Event → Event × List EventBin
  | [], e => (e, [])
  | bin :: rest, e =>
      let e1 := applyListener bin e
      if e1._isPropagationImmediateStopped then (e1, [bin])
      else
        let r := runListeners rest e1
        (r.1, bin :: r.2)

/-- Outcome of `_notifyListener` / `dispatchEvent`: the boolean result, the
event object as the call leaves it, and (observational instrumentation) the
bindings that were invoked. -/
structure NotifyResult where
  result : Bool
  event : Event
  invoked : List EventBin
deriving DecidableEq, Repr

/-- The runtime value of the identifier `type` read at EventDispatcher.ts:161.
`type` is neither a parameter nor a local of `_notifyListener`, and no
enclosing scope of the given sources declares it, so the bucket lookup it
keys never finds an entry: modelled as `none`. -/
def ambientType : Option String := none

/-- The bucket lookup `eventMap[type]` of EventDispatcher.ts:161, keyed by
the out-of-scope identifier `type` (here the explicit `ambient` argument). -/
def lookupBucket (m : EventsMap) (ambient : Option String) : Option Bucket :=
  match ambient with
  | none => none
  | some k => mapFind m k

/-- Embeds `_notifyListener` (EventDispatcher.ts:159-174), with the free occurrence
of `type` at line 161 made an explicit `ambient` parameter.  Selects the
capture map when `event._eventPhase == 1`, otherwise the target/bubble map;
returns `true` immediately when the (ambient-keyed) bucket is absent; else
runs the loop and returns `!event.isDefaultPrevented()`. -/
def _notifyListener (d : EventDispatcher) (ambient : Option String)
    (event : Event) : NotifyResult :=
  let eventMap := if event._eventPhase = 1 then d._captureEventsMap else d._eventsMap
  match lookupBucket eventMap ambient with
  | none => ⟨true, event, []⟩
  | some list =>
      let r := runListeners list event
      ⟨!(r.1.isDefaultPrevented), r.1, r.2⟩

/-- Embeds `dispatchEvent` (EventDispatcher.ts:152-157) with the ambient `type`
value as a parameter: reset the event, stamp `_target`, set the current
target, then notify. -/
def dispatchEventAmb (d : EventDispatcher) (ambient : Option String)
    (event : Event) : NotifyResult :=
  let e1 := event._reset
  let e2 := { e1 with _target := some d.target }
  let e3 := e2._setCurrentTarget d.target
  _notifyListener d ambient e3

/-- Runs `dispatchEvent` as the source does: the ambient `type` identifier is undeclared,
so the notify step's bucket lookup is keyed by `ambientType = none`. -/
def dispatchEvent (d : EventDispatcher) (event : Event) : NotifyResult :=
  dispatchEventAmb d ambientType event

/-- Embeds `dispatchEventWith` (EventDispatcher.ts:183-189): set `_type`, `_bubbles`
and `data` on the class-wide shared reusable event, dispatch it, discard the
boolean result.  The shared instance is threaded explicitly (`reuse` in, the
event state after dispatch out). -/
def dispatchEventWith (d : EventDispatcher) (reuse : Event) (typeKey : String)
    (bubbles : Bool) (data : Option Nat) : Event :=
  let event := reuse
  let event := { event with _type := typeKey }
  let event := { event with _bubbles := bubbles }
  let event := { event with data := data }
  (dispatchEvent d event).event

/-! ## Association-list map lemmas -/

theorem mapFind_cons (k' : String) (v' : Bucket) (tl : EventsMap) (k : String) :
    mapFind ((k', v') :: tl) k = if (k' == k) then some v' else mapFind tl k := by
  by_cases h : k' = k
  · subst h; simp [mapFind, List.find?]
  · have hb : (k' == k) = false := by simpa using h
    simp [mapFind, List.find?, hb]

theorem mapFind_mapSet_self (m : EventsMap) (k : String) (v : Bucket) :
    mapFind (mapSet m k v) k = some v := by
  induction m with
  | nil => simp [mapSet, mapFind_cons, mapFind]
  | cons hd tl ih =>
      obtain ⟨k', v'⟩ := hd
      by_cases h : k' = k
      · subst h
        simp [mapSet, mapFind_cons]
      · have hb : (k' == k) = false := by simpa using h
        simp [mapSet, hb, mapFind_cons, ih]

theorem mapFind_mapSet_ne (m : EventsMap) (k k' : String) (v : Bucket)
    (h : k' ≠ k) : mapFind (mapSet m k v) k' = mapFind m k' := by
  have hkk : (k == k') = false := by simpa using (Ne.symm h)
  induction m with
  | nil => simp [mapSet, mapFind_cons, hkk, mapFind]
  | cons hd tl ih =>
      obtain ⟨k'', v''⟩ := hd
      by_cases hk : k'' = k
      · subst hk
        simp [mapSet, mapFind_cons, hkk]
      · have hb : (k'' == k) = false := by simpa using hk
        simp [mapSet, hb, mapFind_cons, ih]

theorem mapSet_self (m : EventsMap) (k : String) (v : Bucket)
    (h : mapFind m k = some v) : mapSet m k v = m := by
  induction m with
  | nil => simp [mapFind, List.find?] at h
  | cons hd tl ih =>
      obtain ⟨k', v'⟩ := hd
      rw [mapFind_cons] at h
      by_cases hk : k' = k
      · subst hk
        simp at h
        simp [mapSet, h]
      · have hb : (k' == k) = false := by simpa using hk
        rw [hb] at h
        simp at h
        simp [mapSet, hb, ih h]

theorem mapFind_mapDelete_self (m : EventsMap) (k : String) :
    mapFind (mapDelete m k) k = none := by
  induction m with
  | nil => simp [mapDelete, mapFind]
  | cons hd tl ih =>
      obtain ⟨k', v'⟩ := hd
      by_cases hk : k' = k
      · subst hk
        simp [mapDelete, ih]
      · have hb : (k' == k) = false := by simpa using hk
        simp [mapDelete, hb, mapFind_cons, ih]

theorem mapFind_mapDelete_ne (m : EventsMap) (k k' : String)
    (h : k' ≠ k) : mapFind (mapDelete m k) k' = mapFind m k' := by
  induction m with
  | nil => simp [mapDelete]
  | cons hd tl ih =>
      obtain ⟨k'', v''⟩ := hd
      by_cases hk : k'' = k
      · subst hk
        have hb' : (k'' == k') = false := by simpa using fun hh => h (hh.symm)
        simp [mapDelete, mapFind_cons, hb', ih]
      · have hb : (k'' == k) = false := by simpa using hk
        simp [mapDelete, hb, mapFind_cons, ih]

/-! ## Dispatcher-state plumbing lemmas -/

theorem selMap_setSelMap (d : EventDispatcher) (uc : Bool) (m : EventsMap) :
    selMap (setSelMap d uc m) uc = m := by
  cases uc <;> rfl

theorem selMap_setSelMap_other (d : EventDispatcher) (uc : Bool) (m : EventsMap) :
    selMap (setSelMap d uc m) (!uc) = selMap d (!uc) := by
  cases uc <;> rfl

theorem setSelMap_selMap (d : EventDispatcher) (uc : Bool) :
    setSelMap d uc (selMap d uc) = d := by
  cases uc <;> rfl

/-! ## Notification-loop lemmas -/

theorem runListeners_invoked_mem (list : Bucket) (e : Event) (bin : EventBin)
    (h : bin ∈ (runListeners list e).2) : bin ∈ list := by
  induction list generalizing e with
  | nil => simp [runListeners] at h
  | cons hd tl ih =>
      simp only [runListeners] at h
      by_cases hs : (applyListener hd e)._isPropagationImmediateStopped
      · rw [if_pos hs] at h
        simp at h
        simp [h]
      · rw [if_neg hs] at h
        simp at h
        rcases h with h | h
        · simp [h]
        · exact List.mem_cons_of_mem _ (ih _ h)

theorem runListeners_defPrev (list : Bucket) (e : Event) :
    ((runListeners list e).1)._isDefaultPrevented =
      (e._isDefaultPrevented ||
        (runListeners list e).2.any (fun b => b.listener.setPrevent)) := by
  induction list generalizing e with
  | nil => simp [runListeners]
  | cons hd tl ih =>
      simp only [runListeners]
      by_cases hs : (applyListener hd e)._isPropagationImmediateStopped
      · rw [if_pos hs]
        simp [applyListener]
      · rw [if_neg hs]
        simp only [List.any_cons]
        rw [ih]
        simp [applyListener, Bool.or_assoc]

theorem runListeners_phase (list : Bucket) (e : Event) :
    ((runListeners list e).1)._eventPhase = e._eventPhase := by
  induction list generalizing e with
  | nil => rfl
  | cons hd tl ih =>
      simp only [runListeners]
      by_cases hs : (applyListener hd e)._isPropagationImmediateStopped
      · rw [if_pos hs]; rfl
      · rw [if_neg hs]
        rw [ih]
        rfl

theorem runListeners_invoked_stop (l1 : Bucket) (bin : EventBin) (l2 : Bucket)
    (e : Event)
    (he : e._isPropagationImmediateStopped = false)
    (h1 : ∀ b ∈ l1, b.listener.setStopImmediate = false)
    (hb : bin.listener.setStopImmediate = true) :
    (runListeners (l1 ++ bin :: l2) e).2 = l1 ++ [bin] := by
  induction l1 generalizing e with
  | nil =>
      have hs : (applyListener bin e)._isPropagationImmediateStopped = true := by
        simp [applyListener, he, hb]
      simp [runListeners, hs]
  | cons hd tl ih =>
      have hhd : hd.listener.setStopImmediate = false := h1 hd (by simp)
      have hs : (applyListener hd e)._isPropagationImmediateStopped = false := by
        simp [applyListener, he, hhd]
      simp only [List.cons_append, runListeners, hs, if_false, Bool.false_eq_true]
      exact congrArg (fun l => hd :: l)
        (ih _ hs (fun b hbm => h1 b (List.mem_cons_of_mem _ hbm)))

/-! ## Notify / dispatch lemmas -/

theorem dispatchEventAmb_def (d : EventDispatcher) (amb : Option String)
    (e : Event) :
    dispatchEventAmb d amb e =
      _notifyListener d amb
        { _type := e._type, _bubbles := e._bubbles, data := e.data,
          _target := some d.target, _currentTarget := some d.target,
          _eventPhase := e._eventPhase, _isDefaultPrevented := false,
          _isPropagationStopped := false,
          _isPropagationImmediateStopped := false } := rfl

theorem notify_invoked_mem (d : EventDispatcher) (amb : Option String)
    (e : Event) (bin : EventBin)
    (h : bin ∈ (_notifyListener d amb e).invoked) :
    bin ∈ (lookupBucket
      (if e._eventPhase = 1 then d._captureEventsMap else d._eventsMap) amb).getD [] := by
  simp only [_notifyListener] at h
  cases hl : lookupBucket
      (if e._eventPhase = 1 then d._captureEventsMap else d._eventsMap) amb with
  | none => rw [hl] at h; simp at h
  | some list =>
      rw [hl] at h
      simp only [Option.getD_some]
      exact runListeners_invoked_mem list e bin h

theorem notify_result_iff (d : EventDispatcher) (amb : Option String)
    (e : Event) (hdp : e._isDefaultPrevented = false) :
    ((_notifyListener d amb e).result = false ↔
      ∃ bin ∈ (_notifyListener d amb e).invoked, bin.listener.setPrevent = true) := by
  simp only [_notifyListener]
  cases hl : lookupBucket
      (if e._eventPhase = 1 then d._captureEventsMap else d._eventsMap) amb with
  | none => simp
  | some list =>
      simp only [Event.isDefaultPrevented]
      rw [runListeners_defPrev, hdp]
      simp [List.any_eq_true]

theorem notify_event_phase (d : EventDispatcher) (amb : Option String)
    (e : Event) : (_notifyListener d amb e).event._eventPhase = e._eventPhase := by
  simp only [_notifyListener]
  cases hl : lookupBucket
      (if e._eventPhase = 1 then d._captureEventsMap else d._eventsMap) amb with
  | none => rfl
  | some list => exact runListeners_phase list e

theorem notify_result_true_of (d : EventDispatcher) (amb : Option String)
    (e : Event) (hdp : e._isDefaultPrevented = false)
    (h : ∀ bin ∈ (lookupBucket
      (if e._eventPhase = 1 then d._captureEventsMap else d._eventsMap) amb).getD [],
        bin.listener.setPrevent = false) :
    (_notifyListener d amb e).result = true := by
  by_contra hfalse
  rw [Bool.not_eq_true] at hfalse
  rcases (notify_result_iff d amb e hdp).1 hfalse with ⟨bin, hmem, hset⟩
  have := h bin (notify_invoked_mem d amb e bin hmem)
  rw [this] at hset
  exact Bool.false_ne_true hset

theorem dispatchEventAmb_event_phase (d : EventDispatcher) (amb : Option String)
    (e : Event) : (dispatchEventAmb d amb e).event._eventPhase = e._eventPhase := by
  rw [dispatchEventAmb_def]
  rw [notify_event_phase]

/-! ## Concrete states used by the closed theorems -/

/-- A listener whose callable calls `preventDefault()` on the event. -/
def exListenerP : Listener := ⟨0, true, false, false⟩

/-- A dispatcher with `exListenerP` registered for type "x" in the
target/bubble bucket. -/
def exDispatcher : EventDispatcher :=
  addEventListener (mkEventDispatcher 0 none) "x" exListenerP none false 0

/-- A fresh event of type "x" in the target phase. -/
def exEvent : Event :=
  { _type := "x", _bubbles := false, data := none, _target := none,
    _currentTarget := none, _eventPhase := 2, _isDefaultPrevented := false,
    _isPropagationStopped := false, _isPropagationImmediateStopped := false }

/-- A passive listener with identity `n`, used for ordering scenarios. -/
def prioListener (n : Nat) : Listener := ⟨n, false, false, false⟩

/-- The spec §8 priority scenario: listeners with priorities 0, 5, 0, 3
registered in that order for type "x", target/bubble phase (listener
identity `n` is the `n`-th registration). -/
def prioDispatcher : EventDispatcher :=
  addEventListener (addEventListener (addEventListener (addEventListener
    (mkEventDispatcher 0 none) "x" (prioListener 0) none false 0)
    "x" (prioListener 1) none false 5)
    "x" (prioListener 2) none false 0)
    "x" (prioListener 3) none false 3

/-- A dispatcher holding listener 0 in the capture bucket for "x" and
listener 1 in the target/bubble bucket for "x". -/
def cexDispatcher : EventDispatcher :=
  addEventListener (addEventListener (mkEventDispatcher 0 none)
    "x" (prioListener 0) none true 0)
    "x" (prioListener 1) none false 0

/-! ## Claim theorems -/

/-- C1 (code bug): a listener registered for type "x" does NOT fire when an
event of type "x" is dispatched.  `_notifyListener` keys its bucket lookup by
the out-of-scope identifier `type` (EventDispatcher.ts:161), not by the
event's own type, so `dispatchEvent` invokes nothing and returns `true` even
though the registered listener would have prevented the default — whereas
keying the very same lookup by the event's own type (`some "x"`) fires the
listener and returns `false`. -/
theorem dispatchEvent_drops_registered_listener_code_bug :
    hasEventListener exDispatcher "x" = true ∧
    (dispatchEvent exDispatcher exEvent).invoked = [] ∧
    (dispatchEvent exDispatcher exEvent).result = true ∧
    ((_notifyListener exDispatcher (some "x") exEvent).invoked.map
      (fun bin => bin.listener.id)) = [0] ∧
    (_notifyListener exDispatcher (some "x") exEvent).result = false := by
  decide

/-- C2 (code bug): registering priorities [0, 5, 0, 3] in that order yields
bucket order p5, p3, p0-second, p0-first — NOT the claimed (and
doc-commented, EventDispatcher.ts:72-73) insertion order for equal
priorities.  The `bin.priority <= priority` insert point
(EventDispatcher.ts:91) places an equal-priority newcomer before the
already-registered binding of the same priority. -/
theorem addEventListener_priority_tie_order_code_bug :
    ((mapFind prioDispatcher._eventsMap "x").getD []).map
        (fun bin => (bin.listener.id, bin.priority)) = [(1, 5), (3, 3), (2, 0), (0, 0)] ∧
    ((mapFind prioDispatcher._eventsMap "x").getD []).map
        (fun bin => (bin.listener.id, bin.priority)) ≠ [(1, 5), (3, 3), (0, 0), (2, 0)] := by
  decide

/-- C7 (counterexample): removing the last listener of the target/bubble
bucket for "x" deletes that bucket's key, yet `hasEventListener "x"` is still
`true`, because the capture map still holds an entry for "x" — refuting the
claim that after the selected bucket empties, `hasEventListener(type)` is
false. -/
theorem removeEventListener_hasEventListener_counterexample :
    mapFind (removeEventListener cexDispatcher "x" (prioListener 1) false)._eventsMap "x"
      = none ∧
    hasEventListener (removeEventListener cexDispatcher "x" (prioListener 1) false) "x"
      = true := by
  decide

/-- Number of bindings in a bucket whose listener identity matches `l`. -/
def countListener (list : Bucket) (l : Listener) : Nat :=
  list.countP (fun bin => bin.listener == l)

theorem countListener_insert (l1 l2 : Bucket) (bin : EventBin) (l : Listener) :
    countListener (l1 ++ bin :: l2) l =
      countListener (l1 ++ l2) l + (if (bin.listener == l) = true then 1 else 0) := by
  simp only [countListener, List.countP_append, List.countP_cons]
  omega

theorem addEventListener_noop_of_any (d : EventDispatcher) (typeKey : String)
    (l : Listener) (thisObject : Option Nat) (uc : Bool) (p : Int)
    (list : Bucket) (hm : mapFind (selMap d uc) typeKey = some list)
    (hany : list.any (fun bin => bin.listener == l) = true) :
    addEventListener d typeKey l thisObject uc p = d := by
  simp only [addEventListener]
  rw [hm]
  simp [hany]

/-- C3: registering the same listener identity a second time into the same
(type, useCapture) bucket is an idempotent no-op.  Starting from any state
whose bucket holds no binding for listener `l`, the first registration
leaves exactly one binding for `l`, and a second registration — with any
other receiver and priority — returns the dispatcher state unchanged (so the
stored priority, receiver and position all stay those of the first call). -/
theorem addEventListener_dedup_idempotent (d : EventDispatcher)
    (typeKey : String) (l : Listener) (this1 this2 : Option Nat) (uc : Bool)
    (p1 p2 : Int)
    (h : countListener ((mapFind (selMap d uc) typeKey).getD []) l = 0) :
    countListener
      ((mapFind (selMap (addEventListener d typeKey l this1 uc p1) uc) typeKey).getD [])
      l = 1 ∧
    addEventListener (addEventListener d typeKey l this1 uc p1) typeKey l this2 uc p2
      = addEventListener d typeKey l this1 uc p1 := by
  have hll : ((⟨l, this1, p1⟩ : EventBin).listener == l) = true := by simp
  cases hm : mapFind (selMap d uc) typeKey with
  | none =>
      have hd1 : addEventListener d typeKey l this1 uc p1 =
          setSelMap d uc (mapSet (selMap d uc) typeKey [⟨l, this1, p1⟩]) := by
        simp only [addEventListener]
        rw [hm]
      have hb : mapFind (selMap (addEventListener d typeKey l this1 uc p1) uc) typeKey
          = some [⟨l, this1, p1⟩] := by
        rw [hd1, selMap_setSelMap, mapFind_mapSet_self]
      refine ⟨?_, ?_⟩
      · rw [hb]
        simp [countListener, List.countP_cons, hll]
      · exact addEventListener_noop_of_any _ _ _ _ _ _ _ hb (by simp)
  | some list =>
      rw [hm] at h
      simp only [Option.getD_some] at h
      have hnot : ∀ bin ∈ list, ¬(bin.listener == l) = true := by
        intro bin hbin
        exact (List.countP_eq_zero.mp h) bin hbin
      have hany : (list.any (fun bin => bin.listener == l)) = false := by
        rw [List.any_eq_false]
        exact hnot
      cases hidx : list.findIdx? (fun bin => decide (bin.priority ≤ p1)) with
      | some i =>
          have hd1 : addEventListener d typeKey l this1 uc p1 =
              setSelMap d uc (mapSet (selMap d uc) typeKey
                (list.take i ++ (⟨l, this1, p1⟩ : EventBin) :: list.drop i)) := by
            simp only [addEventListener]
            rw [hm]
            simp only [hany, Bool.false_eq_true, if_false, hidx]
          have hb : mapFind (selMap (addEventListener d typeKey l this1 uc p1) uc) typeKey
              = some (list.take i ++ (⟨l, this1, p1⟩ : EventBin) :: list.drop i) := by
            rw [hd1, selMap_setSelMap, mapFind_mapSet_self]
          have hcount : countListener
              (list.take i ++ (⟨l, this1, p1⟩ : EventBin) :: list.drop i) l = 1 := by
            rw [countListener_insert, List.take_append_drop]
            simp [hll, h]
          refine ⟨by rw [hb]; simpa using hcount, ?_⟩
          refine addEventListener_noop_of_any _ _ _ _ _ _ _ hb ?_
          rw [List.any_eq_true]
          exact ⟨⟨l, this1, p1⟩, by simp, hll⟩
      | none =>
          have hd1 : addEventListener d typeKey l this1 uc p1 =
              setSelMap d uc (mapSet (selMap d uc) typeKey
                (list ++ [(⟨l, this1, p1⟩ : EventBin)])) := by
            simp only [addEventListener]
            rw [hm]
            simp only [hany, Bool.false_eq_true, if_false, hidx]
          have hb : mapFind (selMap (addEventListener d typeKey l this1 uc p1) uc) typeKey
              = some (list ++ [(⟨l, this1, p1⟩ : EventBin)]) := by
            rw [hd1, selMap_setSelMap, mapFind_mapSet_self]
          refine ⟨?_, ?_⟩
          · rw [hb]
            simp only [Option.getD_some, countListener, List.countP_append,
              List.countP_cons, hll]
            simp only [countListener] at h
            simp [h]
          · refine addEventListener_noop_of_any _ _ _ _ _ _ _ hb ?_
            rw [List.any_eq_true]
            exact ⟨⟨l, this1, p1⟩, by simp, hll⟩

/-- C3 witness: concrete instance — after registering listener 0 for "x"
with priority 0, re-registering it with a different receiver and priority 7
changes nothing. -/
theorem addEventListener_dedup_idempotent_witness :
    countListener ((mapFind (selMap (mkEventDispatcher 0 none) false) "x").getD [])
      (prioListener 0) = 0 ∧
    (countListener
      ((mapFind (selMap (addEventListener (mkEventDispatcher 0 none) "x"
        (prioListener 0) none false 0) false) "x").getD []) (prioListener 0) = 1 ∧
     addEventListener (addEventListener (mkEventDispatcher 0 none) "x"
        (prioListener 0) none false 0) "x" (prioListener 0) (some 9) false 7
      = addEventListener (mkEventDispatcher 0 none) "x"
        (prioListener 0) none false 0) :=
  ⟨by decide,
   addEventListener_dedup_idempotent (mkEventDispatcher 0 none) "x"
     (prioListener 0) none (some 9) false 0 7 (by decide)⟩

/-- A fresh event of a type ("y") with no registered listeners, target
phase. -/
def exEventY : Event :=
  { _type := "y", _bubbles := false, data := none, _target := none,
    _currentTarget := none, _eventPhase := 2, _isDefaultPrevented := false,
    _isPropagationStopped := false, _isPropagationImmediateStopped := false }

/-- C4: dispatch returns `false` exactly when some invoked listener set the
default-prevented flag (the flags are reset first, and listeners only set
them), and when the phase-selected map has no bucket for the event's type,
`dispatchEvent` runs no listener and returns `true`.  Stated over the
`ambient` lookup key so that the equivalence covers every bucket the notify
loop can actually iterate; `dispatchEvent` itself is the `ambientType`
instance. -/
theorem dispatchEvent_default_prevention_signal (d : EventDispatcher)
    (amb : Option String) (e : Event) :
    ((dispatchEventAmb d amb e).result = false ↔
      ∃ bin ∈ (dispatchEventAmb d amb e).invoked, bin.listener.setPrevent = true) ∧
    (mapFind (if e._eventPhase = 1 then d._captureEventsMap else d._eventsMap) e._type
        = none →
      (dispatchEvent d e).result = true ∧ (dispatchEvent d e).invoked = []) := by
  constructor
  · rw [dispatchEventAmb_def]
    exact notify_result_iff d amb _ rfl
  · intro _
    exact ⟨rfl, rfl⟩

/-- C4 witness: with a prevent-default listener registered for "x", the
equivalence holds at the bucket the loop iterates, and dispatching an event
of an unregistered type "y" returns `true` with nothing invoked. -/
theorem dispatchEvent_default_prevention_signal_witness :
    (((dispatchEventAmb exDispatcher (some "x") exEvent).result = false ↔
      ∃ bin ∈ (dispatchEventAmb exDispatcher (some "x") exEvent).invoked,
        bin.listener.setPrevent = true)) ∧
    ((dispatchEvent exDispatcher exEventY).result = true ∧
      (dispatchEvent exDispatcher exEventY).invoked = []) :=
  ⟨(dispatchEvent_default_prevention_signal exDispatcher (some "x") exEvent).1,
   (dispatchEvent_default_prevention_signal exDispatcher (some "x") exEventY).2
     (by decide)⟩

/-- C5: during one notification pass over a bucket `l1 ++ bin :: l2`, when no
listener of `l1` stops immediate propagation and `bin`'s listener does, the
loop invokes exactly `l1 ++ [bin]` — nothing stored after `bin` runs — and
still returns the negation of the default-prevented flag as set by the
listeners that did run. -/
theorem notifyListener_immediate_stop (d : EventDispatcher)
    (amb : Option String) (e : Event) (l1 : Bucket) (bin : EventBin)
    (l2 : Bucket)
    (hbucket : lookupBucket
       (if e._eventPhase = 1 then d._captureEventsMap else d._eventsMap) amb
       = some (l1 ++ bin :: l2))
    (he0 : e._isPropagationImmediateStopped = false)
    (hdp : e._isDefaultPrevented = false)
    (h1 : ∀ b ∈ l1, b.listener.setStopImmediate = false)
    (hb : bin.listener.setStopImmediate = true) :
    (_notifyListener d amb e).invoked = l1 ++ [bin] ∧
    (_notifyListener d amb e).result
      = !((l1 ++ [bin]).any (fun b => b.listener.setPrevent)) := by
  simp only [_notifyListener]
  rw [hbucket]
  refine ⟨runListeners_invoked_stop l1 bin l2 e he0 h1 hb, ?_⟩
  simp only [Event.isDefaultPrevented]
  rw [runListeners_defPrev, hdp]
  rw [runListeners_invoked_stop l1 bin l2 e he0 h1 hb]
  simp

/-- A listener that calls `preventDefault()` (identity 11). -/
def w5First : Listener := ⟨11, true, false, false⟩

/-- A listener that calls `stopImmediatePropagation()` (identity 12). -/
def w5Stop : Listener := ⟨12, false, true, false⟩

/-- A passive third listener (identity 13). -/
def w5Third : Listener := ⟨13, false, false, false⟩

/-- Three listeners for "x" at priorities 5, 3, 1, so the bucket order is
first, stop, third. -/
def w5Dispatcher : EventDispatcher :=
  addEventListener (addEventListener (addEventListener
    (mkEventDispatcher 0 none) "x" w5First none false 5)
    "x" w5Stop none false 3)
    "x" w5Third none false 1

/-- C5 witness: the second of three listeners stops immediate propagation;
only the first two are invoked, and the result reflects the first listener's
`preventDefault`. -/
theorem notifyListener_immediate_stop_witness :
    (_notifyListener w5Dispatcher (some "x") exEvent).invoked
      = ([(⟨w5First, none, 5⟩ : EventBin)] : Bucket)
          ++ ([(⟨w5Stop, none, 3⟩ : EventBin)] : Bucket) ∧
    (_notifyListener w5Dispatcher (some "x") exEvent).result
      = !((([(⟨w5First, none, 5⟩ : EventBin)] : Bucket)
          ++ ([(⟨w5Stop, none, 3⟩ : EventBin)] : Bucket)).any
          (fun b => b.listener.setPrevent)) :=
  notifyListener_immediate_stop w5Dispatcher (some "x") exEvent
    ([(⟨w5First, none, 5⟩ : EventBin)]) (⟨w5Stop, none, 3⟩ : EventBin)
    ([(⟨w5Third, none, 1⟩ : EventBin)])
    (by decide) (by decide) (by decide) (by decide) (by decide)

/-- C6: the notify step consults exactly one phase bucket, selected by the
event's phase.  A listener absent from the consulted target/bubble bucket —
in particular one registered only with `useCapture = true` — is never invoked
when the event's phase is not Capture (phase ≠ 1), and symmetrically a
listener absent from the consulted capture bucket is never invoked when the
phase is Capture. -/
theorem notifyListener_phase_isolation (d : EventDispatcher)
    (amb : Option String) (e : Event) (l : Listener) :
    (e._eventPhase ≠ 1 →
      (∀ bin ∈ (lookupBucket d._eventsMap amb).getD [], bin.listener ≠ l) →
      ∀ bin ∈ (_notifyListener d amb e).invoked, bin.listener ≠ l) ∧
    (e._eventPhase = 1 →
      (∀ bin ∈ (lookupBucket d._captureEventsMap amb).getD [], bin.listener ≠ l) →
      ∀ bin ∈ (_notifyListener d amb e).invoked, bin.listener ≠ l) := by
  constructor
  · intro hph habs bin hmem
    have hm := notify_invoked_mem d amb e bin hmem
    rw [if_neg hph] at hm
    exact habs bin hm
  · intro hph habs bin hmem
    have hm := notify_invoked_mem d amb e bin hmem
    rw [if_pos hph] at hm
    exact habs bin hm

/-- C6 witness: `cexDispatcher` holds listener 0 only in the capture bucket
for "x"; during a target-phase (phase 2) pass over the "x" bucket, every
invoked binding — here the one that is invoked — has a listener other than
listener 0. -/
theorem notifyListener_phase_isolation_witness :
    (⟨prioListener 1, none, 0⟩ : EventBin).listener ≠ prioListener 0 :=
  ((notifyListener_phase_isolation cexDispatcher (some "x") exEvent
      (prioListener 0)).1 (by decide) (by decide))
    ⟨prioListener 1, none, 0⟩ (by decide)

theorem removeFirst_of_not_mem (list : Bucket) (l : Listener)
    (h : ∀ bin ∈ list, bin.listener ≠ l) : removeFirst list l = list := by
  induction list with
  | nil => rfl
  | cons hd tl ih =>
      have hb : (hd.listener == l) = false := by
        simpa using h hd (by simp)
      simp only [removeFirst, hb, Bool.false_eq_true, if_false]
      rw [ih (fun bin hbin => h bin (List.mem_cons_of_mem _ hbin))]

/-- C7 (amended): `removeEventListener` removes the first binding whose
listener identity matches; when the bucket thereby empties, the type key is
deleted from the selected mapping (so the lookup afterwards finds no entry,
not an empty sequence), and `hasEventListener(type)` becomes false provided
the other phase's mapping also holds no entry for that type; removing from
an absent bucket, or removing a listener absent from a non-empty bucket, is
a no-op. -/
theorem removeEventListener_cleanup_amended (d : EventDispatcher)
    (typeKey : String) (l : Listener) (uc : Bool) :
    (mapFind (selMap d uc) typeKey = none →
       removeEventListener d typeKey l uc = d) ∧
    (∀ list, mapFind (selMap d uc) typeKey = some list → list ≠ [] →
       (∀ bin ∈ list, bin.listener ≠ l) →
       removeEventListener d typeKey l uc = d) ∧
    (∀ list, mapFind (selMap d uc) typeKey = some list →
       mapFind (selMap (removeEventListener d typeKey l uc) uc) typeKey
         = (if removeFirst list l = [] then none else some (removeFirst list l)) ∧
       (removeFirst list l = [] → mapFind (selMap d (!uc)) typeKey = none →
          hasEventListener (removeEventListener d typeKey l uc) typeKey = false)) := by
  refine ⟨?_, ?_, ?_⟩
  · intro hm
    simp only [removeEventListener]
    rw [hm]
  · intro list hm hne hnot
    simp only [removeEventListener]
    rw [hm]
    simp only [removeFirst_of_not_mem list l hnot]
    rw [if_neg (by simpa using hne)]
    rw [mapSet_self _ _ _ hm, setSelMap_selMap]
  · intro list hm
    constructor
    · simp only [removeEventListener]
      rw [hm]
      by_cases hrf : removeFirst list l = []
      · have hlen : (removeFirst list l).length = 0 := by simpa using hrf
        simp only [if_pos hlen, if_pos hrf]
        rw [selMap_setSelMap, mapFind_mapDelete_self]
      · have hlen : ¬(removeFirst list l).length = 0 := by simpa using hrf
        simp only [if_neg hlen, if_neg hrf]
        rw [selMap_setSelMap, mapFind_mapSet_self]
    · intro hrf hother
      have hd' : removeEventListener d typeKey l uc
          = setSelMap d uc (mapDelete (selMap d uc) typeKey) := by
        simp only [removeEventListener]
        rw [hm]
        have hlen : (removeFirst list l).length = 0 := by simpa using hrf
        simp only [if_pos hlen]
      rw [hd']
      cases uc with
      | false =>
          simp only [selMap, Bool.not_false, if_true] at hother ⊢
          simp only [setSelMap, if_false, Bool.false_eq_true]
          simp [hasEventListener, mapFind_mapDelete_self, hother]
      | true =>
          simp only [selMap, Bool.not_true, if_false, Bool.false_eq_true] at hother ⊢
          simp only [setSelMap, if_true]
          simp [hasEventListener, mapFind_mapDelete_self, hother]

/-- A dispatcher holding only listener 2 for "x" in the target/bubble
bucket. -/
def w7Dispatcher : EventDispatcher :=
  addEventListener (mkEventDispatcher 0 none) "x" (prioListener 2) none false 0

/-- C7 witness: removing the only target/bubble listener for "x" (with no
capture listener for "x") leaves the key absent and `hasEventListener "x"`
false. -/
theorem removeEventListener_cleanup_amended_witness :
    (mapFind (selMap (removeEventListener w7Dispatcher "x" (prioListener 2) false) false) "x"
       = (if removeFirst [⟨prioListener 2, none, 0⟩] (prioListener 2) = [] then none
          else some (removeFirst [⟨prioListener 2, none, 0⟩] (prioListener 2)))) ∧
    hasEventListener (removeEventListener w7Dispatcher "x" (prioListener 2) false) "x"
      = false :=
  have h := (removeEventListener_cleanup_amended w7Dispatcher "x"
    (prioListener 2) false).2.2 [⟨prioListener 2, none, 0⟩] (by decide)
  ⟨h.1, h.2 (by decide) (by decide)⟩

/-- The event as `dispatchEvent` hands it to `_notifyListener`: flags reset,
`_target` stamped, current target set (EventDispatcher.ts:153-155). -/
def preparedEvent (d : EventDispatcher) (e : Event) : Event :=
  Event._setCurrentTarget { e._reset with _target := some d.target } d.target

theorem dispatch_result_true_of (d : EventDispatcher) (amb : Option String)
    (e : Event)
    (h : ∀ bin ∈ (lookupBucket
      (if e._eventPhase = 1 then d._captureEventsMap else d._eventsMap) amb).getD [],
        bin.listener.setPrevent = false) :
    (dispatchEventAmb d amb e).result = true := by
  rw [dispatchEventAmb_def]
  exact notify_result_true_of d amb _ rfl h

/-- C8: `dispatchEvent` first resets the event's three flags and stamps both
`_target` and `currentTarget` with the dispatcher's declared target — the
delegate given at construction, or the dispatcher itself when none was —
before any listener can be notified; consequently two consecutive dispatches
of the same event object through a bucket whose listeners never call
`preventDefault` both return `true`. -/
theorem dispatchEvent_reset_and_stamp (selfId t : Nat) (d : EventDispatcher)
    (amb : Option String) (e : Event) :
    (mkEventDispatcher selfId none).target = selfId ∧
    (mkEventDispatcher selfId (some t)).target = t ∧
    dispatchEventAmb d amb e = _notifyListener d amb (preparedEvent d e) ∧
    preparedEvent d e
      = { e with _isDefaultPrevented := false, _isPropagationStopped := false,
                 _isPropagationImmediateStopped := false,
                 _target := some d.target, _currentTarget := some d.target } ∧
    ((∀ bin ∈ (lookupBucket
        (if e._eventPhase = 1 then d._captureEventsMap else d._eventsMap) amb).getD [],
          bin.listener.setPrevent = false) →
      (dispatchEventAmb d amb e).result = true ∧
      (dispatchEventAmb d amb (dispatchEventAmb d amb e).event).result = true) := by
  refine ⟨rfl, rfl, rfl, rfl, ?_⟩
  intro h
  refine ⟨dispatch_result_true_of d amb e h, ?_⟩
  apply dispatch_result_true_of
  rw [dispatchEventAmb_event_phase d amb e]
  exact h

/-- C8 witness: with the passive listeners of `cexDispatcher`, both
consecutive dispatches of the same event return `true`, and the stamping
facts hold at dispatcher identity 3 with delegate 7. -/
theorem dispatchEvent_reset_and_stamp_witness :
    (mkEventDispatcher 3 none).target = 3 ∧
    (mkEventDispatcher 3 (some 7)).target = 7 ∧
    dispatchEventAmb cexDispatcher (some "x") exEvent
      = _notifyListener cexDispatcher (some "x") (preparedEvent cexDispatcher exEvent) ∧
    preparedEvent cexDispatcher exEvent
      = { exEvent with _isDefaultPrevented := false, _isPropagationStopped := false,
                       _isPropagationImmediateStopped := false,
                       _target := some cexDispatcher.target,
                       _currentTarget := some cexDispatcher.target } ∧
    ((dispatchEventAmb cexDispatcher (some "x") exEvent).result = true ∧
     (dispatchEventAmb cexDispatcher (some "x")
        (dispatchEventAmb cexDispatcher (some "x") exEvent).event).result = true) :=
  have h := dispatchEvent_reset_and_stamp 3 7 cexDispatcher (some "x") exEvent
  ⟨h.1, h.2.1, h.2.2.1, h.2.2.2.1, h.2.2.2.2 (by decide)⟩

/-- C9: `dispatchEventWith` overwrites exactly the `_type`, `_bubbles` and
`data` fields of the shared reusable event with its arguments and then
dispatches that instance, discarding the boolean result: its effect on the
shared event equals `dispatchEvent` after the three mutations, and the
previous values of those three fields are irrelevant. -/
theorem dispatchEventWith_shared_event (d : EventDispatcher) (reuse : Event)
    (typeKey : String) (bubbles : Bool) (data : Option Nat) :
    dispatchEventWith d reuse typeKey bubbles data
      = (dispatchEvent d
          { reuse with _type := typeKey, _bubbles := bubbles, data := data }).event ∧
    (∀ t0 : String, ∀ b0 : Bool, ∀ dat0 : Option Nat,
      dispatchEventWith d { reuse with _type := t0, _bubbles := b0, data := dat0 }
          typeKey bubbles data
        = dispatchEventWith d reuse typeKey bubbles data) := by
  exact ⟨rfl, fun t0 b0 dat0 => rfl⟩

/-- C10: `addEventListener` and `removeEventListener` touch only the single
bucket selected by their (type, useCapture) arguments: with
`useCapture = false` the capture map is untouched, with `useCapture = true`
the target/bubble map is untouched, and in the selected map every bucket
under a different type key is unchanged. -/
theorem registration_frame_conditions (d : EventDispatcher) (typeKey : String)
    (l : Listener) (thisObject : Option Nat) (p : Int) (k : String) (uc : Bool)
    (hk : k ≠ typeKey) :
    (addEventListener d typeKey l thisObject false p)._captureEventsMap
      = d._captureEventsMap ∧
    (addEventListener d typeKey l thisObject true p)._eventsMap = d._eventsMap ∧
    (removeEventListener d typeKey l false)._captureEventsMap
      = d._captureEventsMap ∧
    (removeEventListener d typeKey l true)._eventsMap = d._eventsMap ∧
    mapFind (selMap (addEventListener d typeKey l thisObject uc p) uc) k
      = mapFind (selMap d uc) k ∧
    mapFind (selMap (removeEventListener d typeKey l uc) uc) k
      = mapFind (selMap d uc) k := by
  have hadd : ∀ uc', addEventListener d typeKey l thisObject uc' p = d ∨
      ∃ v, addEventListener d typeKey l thisObject uc' p
        = setSelMap d uc' (mapSet (selMap d uc') typeKey v) := by
    intro uc'
    simp only [addEventListener]
    cases hm : mapFind (selMap d uc') typeKey with
    | none => exact Or.inr ⟨_, rfl⟩
    | some list =>
        by_cases hany : (list.any (fun bin => bin.listener == l)) = true
        · simp only [if_pos hany]
          exact Or.inl trivial
        · simp only [if_neg hany]
          exact Or.inr ⟨_, rfl⟩
  have hrem : ∀ uc', removeEventListener d typeKey l uc' = d ∨
      removeEventListener d typeKey l uc'
        = setSelMap d uc' (mapDelete (selMap d uc') typeKey) ∨
      ∃ v, removeEventListener d typeKey l uc'
        = setSelMap d uc' (mapSet (selMap d uc') typeKey v) := by
    intro uc'
    simp only [removeEventListener]
    cases hm : mapFind (selMap d uc') typeKey with
    | none => exact Or.inl rfl
    | some list =>
        by_cases hlen : (removeFirst list l).length = 0
        · simp only [if_pos hlen]
          exact Or.inr (Or.inl trivial)
        · simp only [if_neg hlen]
          exact Or.inr (Or.inr ⟨_, rfl⟩)
  refine ⟨?_, ?_, ?_, ?_, ?_, ?_⟩
  · rcases hadd false with h | ⟨v, h⟩
    · rw [h]
    · rw [h]; rfl
  · rcases hadd true with h | ⟨v, h⟩
    · rw [h]
    · rw [h]; rfl
  · rcases hrem false with h | h | ⟨v, h⟩
    · rw [h]
    · rw [h]; rfl
    · rw [h]; rfl
  · rcases hrem true with h | h | ⟨v, h⟩
    · rw [h]
    · rw [h]; rfl
    · rw [h]; rfl
  · rcases hadd uc with h | ⟨v, h⟩
    · rw [h]
    · rw [h, selMap_setSelMap, mapFind_mapSet_ne _ _ _ _ hk]
  · rcases hrem uc with h | h | ⟨v, h⟩
    · rw [h]
    · rw [h, selMap_setSelMap, mapFind_mapDelete_ne _ _ _ hk]
    · rw [h, selMap_setSelMap, mapFind_mapSet_ne _ _ _ _ hk]

/-- C10 witness: concrete instance at type "x", other key "y". -/
theorem registration_frame_conditions_witness :
    (addEventListener cexDispatcher "x" (prioListener 3) none false 2)._captureEventsMap
      = cexDispatcher._captureEventsMap ∧
    (addEventListener cexDispatcher "x" (prioListener 3) none true 2)._eventsMap
      = cexDispatcher._eventsMap ∧
    (removeEventListener cexDispatcher "x" (prioListener 3) false)._captureEventsMap
      = cexDispatcher._captureEventsMap ∧
    (removeEventListener cexDispatcher "x" (prioListener 3) true)._eventsMap
      = cexDispatcher._eventsMap ∧
    mapFind (selMap (addEventListener cexDispatcher "x" (prioListener 3) none false 2)
        false) "y"
      = mapFind (selMap cexDispatcher false) "y" ∧
    mapFind (selMap (removeEventListener cexDispatcher "x" (prioListener 3) false)
        false) "y"
      = mapFind (selMap cexDispatcher false) "y" :=
  registration_frame_conditions cexDispatcher "x" (prioListener 3) none 2 "y" false
    (by decide)
